import Mathlib

/-!
Verification of the dropbox-sign-go client library.

The development shallowly embeds the parts of the repository that the
properties below are about:

* the response envelope parser `parseResponse` and the error classifier
  `parseErrorResponse` from the client file, together with the semantics of
  Go encoding/json decoding for the concrete struct shapes they decode into
  (`ErrorResponse`, `ErrorResponseError`, `[]WarningResponse`, and the
  generic `map[string]json.RawMessage` step);
* the error taxonomy `ErrorResponseError` / `ClientError` and the predicates
  `IsNotFound`, `IsBadRequest`, `IsUnauthorized`;
* the `SendSignatureRequest` builder (its `New...` constructor, every
  `With...` setter, and the set of JSON keys `encoding/json` emits for it
  under the omitempty tags declared in the source);
* `ParseSignerStatus` and the `SignerStatus.UnmarshalJSON` method.

Modelling notes. A raw HTTP body is represented as its text together with
the result of JSON-parsing that text (`none` when the text is not valid
JSON); the lexer itself is external. Go decoding of a JSON value into the
concrete struct shapes is embedded field by field: a missing field or JSON
null leaves the Go zero value, a JSON null into a pointer field leaves nil,
a type mismatch is an error, later duplicate object keys win, and unknown
fields are ignored. Field-name matching is by exact name (the
case-insensitive fallback of encoding/json is never exercised by these
structs). `strings.ToLower` and `strings.TrimSpace` are embedded on lists
of characters: lower-casing applies the complete simple lower-case mapping
of the Unicode character database (the per-rune mapping of unicode.ToLower,
transcribed below as a table of arithmetic-progression ranges covering
every code point whose lower-case differs from itself), and the whitespace
test is the complete Unicode White_Space set used by unicode.IsSpace.
-/

namespace Dropbox

/-- JSON values: the result of lexing a syntactically valid JSON text. -/
inductive Json : Type where
  | null : Json
  | bool (b : Bool) : Json
  | num (n : Int) : Json
  | str (s : String) : Json
  | arr (elems : List Json) : Json
  | obj (fields : List (String × Json)) : Json

/-- Raw HTTP response body: the raw text together with the result of JSON
parsing it; the json component is none when the text is not valid JSON. -/
structure RawBody where
  text : String
  json : Option Json

/-- Single quote character, used to reproduce the error message format of
the source. -/
def sq : String := String.singleton (Char.ofNat 39)

/-- Last-binding lookup in a JSON object, matching how encoding/json fills
a Go map: a later duplicate key overwrites an earlier one. -/
def lookupLast (kvs : List (String × Json)) (k : String) : Option Json :=
  match kvs with
  | [] => none
  | (k0, v) :: rest =>
    match lookupLast rest k with
    | some r => some r
    | none => if k0 = k then some v else none

/-- Go decoding of a string struct field from a JSON object: a missing
field or JSON null leaves the zero value, a JSON string is taken verbatim,
anything else is a type error. -/
def strField (kvs : List (String × Json)) (name : String) : Except String String :=
  match lookupLast kvs name with
  | none => Except.ok ""
  | some Json.null => Except.ok ""
  | some (Json.str s) => Except.ok s
  | some _ => Except.error ("cannot unmarshal value into string field " ++ name)

/-- Go decoding of a string pointer struct field from a JSON object: a
missing field or JSON null leaves the pointer nil, a JSON string allocates
it, anything else is a type error. -/
def optStrField (kvs : List (String × Json)) (name : String) :
    Except String (Option String) :=
  match lookupLast kvs name with
  | none => Except.ok none
  | some Json.null => Except.ok none
  | some (Json.str s) => Except.ok (some s)
  | some _ => Except.error ("cannot unmarshal value into string pointer field " ++ name)

/-- ErrorResponseError from the source: detailed error information from the
API. Status carries the json dash tag in the source, so it is never read
from the body. -/
structure ErrorResponseError where
  Status : Int
  ErrorMsg : String
  ErrorPath : Option String
  ErrorName : String
deriving Repr, DecidableEq

/-- Go decoding of a JSON value into the ErrorResponseError struct. The
Status field has the json dash tag and always keeps its zero value here. -/
def decodeErrorResponseError (j : Json) : Except String ErrorResponseError :=
  match j with
  | Json.null => Except.ok { Status := 0, ErrorMsg := "", ErrorPath := none, ErrorName := "" }
  | Json.obj kvs =>
    match strField kvs "error_msg" with
    | Except.error e => Except.error e
    | Except.ok msg =>
      match optStrField kvs "error_path" with
      | Except.error e => Except.error e
      | Except.ok path =>
        match strField kvs "error_name" with
        | Except.error e => Except.error e
        | Except.ok name =>
          Except.ok { Status := 0, ErrorMsg := msg, ErrorPath := path, ErrorName := name }
  | _ => Except.error "cannot unmarshal value into ErrorResponseError"

/-- Go decoding of a JSON value into the ErrorResponse struct (whose single
field is Error under the json key named error). A missing error key leaves
the zero-valued inner struct. -/
def decodeErrorResponse (j : Json) : Except String ErrorResponseError :=
  match j with
  | Json.null => Except.ok { Status := 0, ErrorMsg := "", ErrorPath := none, ErrorName := "" }
  | Json.obj kvs =>
    match lookupLast kvs "error" with
    | none => Except.ok { Status := 0, ErrorMsg := "", ErrorPath := none, ErrorName := "" }
    | some v => decodeErrorResponseError v
  | _ => Except.error "cannot unmarshal value into ErrorResponse"

/-- WarningResponse from the source: a non-fatal warning returned by the
API. -/
structure WarningResponse where
  WarningMsg : String
  WarningName : String
deriving Repr, DecidableEq

/-- Go decoding of a JSON value into the WarningResponse struct. -/
def decodeWarning (j : Json) : Except String WarningResponse :=
  match j with
  | Json.null => Except.ok { WarningMsg := "", WarningName := "" }
  | Json.obj kvs =>
    match strField kvs "warning_msg" with
    | Except.error e => Except.error e
    | Except.ok msg =>
      match strField kvs "warning_name" with
      | Except.error e => Except.error e
      | Except.ok name => Except.ok { WarningMsg := msg, WarningName := name }
  | _ => Except.error "cannot unmarshal value into WarningResponse"

/-- Go decoding of a list of JSON values into a WarningResponse slice: the
first failing element fails the whole decode. -/
def decodeWarningList (xs : List Json) : Except String (List WarningResponse) :=
  match xs with
  | [] => Except.ok []
  | x :: rest =>
    match decodeWarning x with
    | Except.error e => Except.error e
    | Except.ok w =>
      match decodeWarningList rest with
      | Except.error e => Except.error e
      | Except.ok ws => Except.ok (w :: ws)

/-- Go decoding of a JSON value into a WarningResponse slice: null gives
the nil slice, an array decodes elementwise, anything else is a type
error. -/
def decodeWarnings (j : Json) : Except String (List WarningResponse) :=
  match j with
  | Json.null => Except.ok []
  | Json.arr xs => decodeWarningList xs
  | _ => Except.error "cannot unmarshal value into warning slice"

/-- Go decoding of a JSON value into a map from strings to raw messages:
null gives the nil map, an object gives its fields, anything else is a
type error. -/
def asMap (j : Json) : Except String (List (String × Json)) :=
  match j with
  | Json.null => Except.ok []
  | Json.obj kvs => Except.ok kvs
  | _ => Except.error "cannot unmarshal value into map"

/-- ClientError from the source: a local failure wrapper carrying a
message, the HTTP status code when applicable, and the underlying cause.
The cause is embedded as the message of the wrapped error. -/
structure ClientError where
  Message : String
  StatusCode : Int
  Err : Option String
deriving Repr, DecidableEq

/-- NewClientError from the source. -/
def NewClientError (message : String) (statusCode : Int) (err : Option String) :
    ClientError :=
  { Message := message, StatusCode := statusCode, Err := err }

/-- Go error values that flow through this client: either the structured
API error, the local client error, or some unrelated error value. -/
inductive DSError : Type where
  | api (e : ErrorResponseError) : DSError
  | client (e : ClientError) : DSError
  | other (msg : String) : DSError
deriving Repr, DecidableEq

/-- Status code extracted from an error value, none for values that are
neither of the two known variants. -/
def statusOf (err : DSError) : Option Int :=
  match err with
  | DSError.api e => some e.Status
  | DSError.client e => some e.StatusCode
  | DSError.other _ => none

/-- IsNotFound from the source: true exactly for either error variant with
status 404. -/
def IsNotFound (err : DSError) : Bool :=
  match err with
  | DSError.api e => e.Status == 404
  | DSError.client e => e.StatusCode == 404
  | DSError.other _ => false

/-- IsBadRequest from the source: true exactly for either error variant
with status 400. -/
def IsBadRequest (err : DSError) : Bool :=
  match err with
  | DSError.api e => e.Status == 400
  | DSError.client e => e.StatusCode == 400
  | DSError.other _ => false

/-- IsUnauthorized from the source: true exactly for either error variant
with status 401. -/
def IsUnauthorized (err : DSError) : Bool :=
  match err with
  | DSError.api e => e.Status == 401
  | DSError.client e => e.StatusCode == 401
  | DSError.other _ => false

/-- The json.Unmarshal step of parseErrorResponse: parse the raw text and
decode the result into the ErrorResponse struct. -/
def unmarshalErrorBody (body : RawBody) : Except String ErrorResponseError :=
  match body.json with
  | none => Except.error "invalid character in JSON text"
  | some j => decodeErrorResponse j

/-- parseErrorResponse from the source: decode the error envelope; on
success overwrite the Status of the inner error with the HTTP status and
return it, on failure fall back to a ClientError carrying the raw body
text, the HTTP status, and the parse failure as cause. -/
def parseErrorResponse (body : RawBody) (statusCode : Int) : DSError :=
  match unmarshalErrorBody body with
  | Except.error m =>
    DSError.client
      (NewClientError ("failed to parse error response: " ++ body.text) statusCode (some m))
  | Except.ok e => DSError.api { e with Status := statusCode }

/-- Error message of parseResponse for a missing payload key, as formatted
by the source. -/
def missingKeyMsg (key : String) : String :=
  "missing key " ++ sq ++ key ++ sq ++ " in response"

/-- parseResponse from the source: unmarshal the body into a generic
key-to-raw-message map, extract the payload under the given key, decode it
with the payload decoder, then best-effort decode the warnings key, which
degrades to the nil slice when its decode fails. -/
def parseResponse {T : Type} (dec : Json → Except String T) (body : RawBody)
    (key : String) : Except String (T × List WarningResponse) :=
  match body.json with
  | none => Except.error "failed to unmarshal response: invalid character in JSON text"
  | some j =>
    match asMap j with
    | Except.error e => Except.error ("failed to unmarshal response: " ++ e)
    | Except.ok rawResponse =>
      match lookupLast rawResponse key with
      | none => Except.error (missingKeyMsg key)
      | some payload =>
        match dec payload with
        | Except.error e => Except.error ("failed to unmarshal payload: " ++ e)
        | Except.ok result =>
          match lookupLast rawResponse "warnings" with
          | none => Except.ok (result, [])
          | some warningsData =>
            match decodeWarnings warningsData with
            | Except.ok ws => Except.ok (result, ws)
            | Except.error _ => Except.ok (result, [])

/-- JSON encoding of a WarningResponse, as encoding/json emits it. -/
def warningJson (w : WarningResponse) : Json :=
  Json.obj [("warning_msg", Json.str w.WarningMsg), ("warning_name", Json.str w.WarningName)]

/-- Decoder for a JSON number, used to instantiate the generic payload
parameter of parseResponse on concrete inputs. -/
def decodeNum (j : Json) : Except String Int :=
  match j with
  | Json.num n => Except.ok n
  | _ => Except.error "cannot unmarshal value into int"

/-- SMSPhoneNumberType from the source, a named string type. -/
abbrev SMSPhoneNumberType := String

/-- SubSignatureRequestTemplateSigner from the source. The last field is
named SMSPhoneNumberType in the source; it is suffixed here so that the
field name does not shadow its own type. -/
structure SubSignatureRequestTemplateSigner where
  Role : String
  Name : String
  EmailAddress : String
  Pin : Option String
  SMSPhoneNumber : Option String
  SMSPhoneNumberTy : Option SMSPhoneNumberType
deriving Repr, DecidableEq

/-- SubCC from the source. -/
structure SubCC where
  Role : String
  Email : String
deriving Repr, DecidableEq

/-- SubCustomField from the source. -/
structure SubCustomField where
  Name : String
  Editor : Option String
  Required : Option Bool
  Value : Option String
deriving Repr, DecidableEq

/-- SubSigningOptionsDefaultType from the source, a named string type. -/
abbrev SubSigningOptionsDefaultType := String

/-- SubSigningOptions from the source. The field named Type in the source
is rendered Typ, since Type is a Lean keyword. -/
structure SubSigningOptions where
  DefaultType : SubSigningOptionsDefaultType
  Draw : Option Bool
  Phone : Option Bool
  Typ : Option Bool
  Upload : Option Bool
deriving Repr, DecidableEq

/-- SendSignatureRequest from the source, fields in declaration order.
Pointer fields are options, slices are lists, the byte slices of Files are
lists of bytes, the Metadata map is an association list. -/
structure SendSignatureRequest where
  Signers : List SubSignatureRequestTemplateSigner
  TemplateIDs : List String
  AllowDecline : Option Bool
  CCs : List SubCC
  ClientID : Option String
  CustomFields : List SubCustomField
  Files : List (List Nat)
  FileURLs : List String
  IsEID : Option Bool
  Message : Option String
  Metadata : List (String × String)
  SigningOptions : Option SubSigningOptions
  SigningRedirectURL : Option String
  TestMode : Option Bool
  Title : Option String
deriving Repr, DecidableEq

/-- NewSendSignatureRequest from the source: only the two required fields
are set, every optional field keeps its zero value. -/
def NewSendSignatureRequest (signers : List SubSignatureRequestTemplateSigner)
    (templateIDs : List String) : SendSignatureRequest :=
  { Signers := signers, TemplateIDs := templateIDs, AllowDecline := none, CCs := [],
    ClientID := none, CustomFields := [], Files := [], FileURLs := [], IsEID := none,
    Message := none, Metadata := [], SigningOptions := none, SigningRedirectURL := none,
    TestMode := none, Title := none }

/-- WithAllowDecline from the source. -/
def SendSignatureRequest.WithAllowDecline (s : SendSignatureRequest) (allowDecline : Bool) :
    SendSignatureRequest :=
  { s with AllowDecline := some allowDecline }

/-- WithCCs from the source. -/
def SendSignatureRequest.WithCCs (s : SendSignatureRequest) (ccs : List SubCC) :
    SendSignatureRequest :=
  { s with CCs := ccs }

/-- WithClientID from the source. -/
def SendSignatureRequest.WithClientID (s : SendSignatureRequest) (clientID : String) :
    SendSignatureRequest :=
  { s with ClientID := some clientID }

/-- WithCustomFields from the source. -/
def SendSignatureRequest.WithCustomFields (s : SendSignatureRequest)
    (customFields : List SubCustomField) : SendSignatureRequest :=
  { s with CustomFields := customFields }

/-- WithFiles from the source. -/
def SendSignatureRequest.WithFiles (s : SendSignatureRequest) (files : List (List Nat)) :
    SendSignatureRequest :=
  { s with Files := files }

/-- WithFileURLs from the source. -/
def SendSignatureRequest.WithFileURLs (s : SendSignatureRequest) (fileURLs : List String) :
    SendSignatureRequest :=
  { s with FileURLs := fileURLs }

/-- WithIsEID from the source. -/
def SendSignatureRequest.WithIsEID (s : SendSignatureRequest) (isEID : Bool) :
    SendSignatureRequest :=
  { s with IsEID := some isEID }

/-- WithMessage from the source. -/
def SendSignatureRequest.WithMessage (s : SendSignatureRequest) (message : String) :
    SendSignatureRequest :=
  { s with Message := some message }

/-- WithMetadata from the source. -/
def SendSignatureRequest.WithMetadata (s : SendSignatureRequest)
    (metadata : List (String × String)) : SendSignatureRequest :=
  { s with Metadata := metadata }

/-- WithSigningOptions from the source; its parameter is a pointer in the
source, so it takes and stores an option directly. -/
def SendSignatureRequest.WithSigningOptions (s : SendSignatureRequest)
    (signingOptions : Option SubSigningOptions) : SendSignatureRequest :=
  { s with SigningOptions := signingOptions }

/-- WithSigningRedirectURL from the source. -/
def SendSignatureRequest.WithSigningRedirectURL (s : SendSignatureRequest)
    (signingRedirectURL : String) : SendSignatureRequest :=
  { s with SigningRedirectURL := some signingRedirectURL }

/-- WithTestMode from the source. -/
def SendSignatureRequest.WithTestMode (s : SendSignatureRequest) (testMode : Bool) :
    SendSignatureRequest :=
  { s with TestMode := some testMode }

/-- WithTitle from the source. -/
def SendSignatureRequest.WithTitle (s : SendSignatureRequest) (title : String) :
    SendSignatureRequest :=
  { s with Title := some title }

/-- Key emitted for a pointer field under omitempty: present exactly when
the pointer is non-nil. -/
def optKey {α : Type} (o : Option α) (k : String) : List String :=
  match o with
  | some _ => [k]
  | none => []

/-- Key emitted for a slice or map field under omitempty: present exactly
when the value is non-empty (a nil slice and an empty slice are both
omitted). -/
def sliceKey {α : Type} (l : List α) (k : String) : List String :=
  if l.isEmpty then [] else [k]

/-- The ordered list of JSON object keys encoding/json emits when
marshalling a SendSignatureRequest: the two untagged required fields
always, then each omitempty field exactly when non-empty, in struct
declaration order. -/
def SendSignatureRequest.marshalKeys (s : SendSignatureRequest) : List String :=
  ["signers", "template_ids"]
    ++ optKey s.AllowDecline "allow_decline"
    ++ sliceKey s.CCs "ccs"
    ++ optKey s.ClientID "client_id"
    ++ sliceKey s.CustomFields "custom_fields"
    ++ sliceKey s.Files "files"
    ++ sliceKey s.FileURLs "file_urls"
    ++ optKey s.IsEID "is_eid"
    ++ optKey s.Message "message"
    ++ sliceKey s.Metadata "metadata"
    ++ optKey s.SigningOptions "signing_options"
    ++ optKey s.SigningRedirectURL "signing_redirect_url"
    ++ optKey s.TestMode "test_mode"
    ++ optKey s.Title "title"

/-- SignerStatus from the source, a named string type. -/
abbrev SignerStatus := String

/-- SignerStatusSuccess constant from the source. -/
def SignerStatusSuccess : SignerStatus := "success"

/-- SignerStatusOnHold constant from the source. -/
def SignerStatusOnHold : SignerStatus := "on_hold"

/-- SignerStatusSigned constant from the source. -/
def SignerStatusSigned : SignerStatus := "signed"

/-- SignerStatusAwaitingSignature constant from the source. -/
def SignerStatusAwaitingSignature : SignerStatus := "awaiting_signature"

/-- SignerStatusDeclined constant from the source. -/
def SignerStatusDeclined : SignerStatus := "declined"

/-- SignerStatusErrorUnknown constant from the source. -/
def SignerStatusErrorUnknown : SignerStatus := "error_unknown"

/-- SignerStatusErrorFile constant from the source. -/
def SignerStatusErrorFile : SignerStatus := "error_file"

/-- SignerStatusErrorComponentPosition constant from the source. -/
def SignerStatusErrorComponentPosition : SignerStatus := "error_component_position"

/-- SignerStatusErrorTextTag constant from the source. -/
def SignerStatusErrorTextTag : SignerStatus := "error_text_tag"

/-- SignerStatusOnHoldByRequester constant from the source. -/
def SignerStatusOnHoldByRequester : SignerStatus := "on_hold_by_requester"

/-- SignerStatusErrorInvalidEmail constant from the source. -/
def SignerStatusErrorInvalidEmail : SignerStatus := "error_invalid_email"

/-- SignerStatusExpired constant from the source. -/
def SignerStatusExpired : SignerStatus := "expired"

/-- SignerStatusUnknownEnum constant from the source. -/
def SignerStatusUnknownEnum : SignerStatus := "unknown_enum"

/-- The twelve status strings recognised by the switch of
ParseSignerStatus. -/
def knownSignerStatusStrings : List String :=
  ["success", "on_hold", "signed", "awaiting_signature", "declined", "error_unknown",
   "error_file", "error_component_position", "error_text_tag", "on_hold_by_requester",
   "error_invalid_email", "expired"]

/-- One range of the simple lower-case mapping table: the code points
lo, lo + step, ..., hi (step is 1 or 2) each lower-case to
tlo + (codepoint - lo); every other code point lower-cases to itself. -/
structure CaseEntry where
  lo : Nat
  hi : Nat
  step : Nat
  tlo : Nat
deriving Repr, DecidableEq

/-- Membership of a code point in one table range. -/
def inEntry (e : CaseEntry) (n : Nat) : Bool :=
  e.lo ≤ n && n ≤ e.hi && (n - e.lo) % e.step == 0

/-- Lower-case image of a member code point of one table range. -/
def applyEntry (e : CaseEntry) (n : Nat) : Nat := e.tlo + (n - e.lo)

/-- The simple lower-case mapping of the Unicode character database, as
applied per rune by strings.ToLower: every code point whose lower-case
differs from itself, compressed into arithmetic-progression ranges. -/
def lowerTable : List CaseEntry :=
  [ CaseEntry.mk 0x41 0x5a 1 0x61, CaseEntry.mk 0xc0 0xd6 1 0xe0, CaseEntry.mk 0xd8 0xde 1 0xf8,
   CaseEntry.mk 0x100 0x12e 2 0x101, CaseEntry.mk 0x130 0x130 1 0x69,
   CaseEntry.mk 0x132 0x136 2 0x133, CaseEntry.mk 0x139 0x147 2 0x13a,
   CaseEntry.mk 0x14a 0x176 2 0x14b, CaseEntry.mk 0x178 0x178 1 0xff,
   CaseEntry.mk 0x179 0x17d 2 0x17a, CaseEntry.mk 0x181 0x181 1 0x253,
   CaseEntry.mk 0x182 0x184 2 0x183, CaseEntry.mk 0x186 0x186 1 0x254,
   CaseEntry.mk 0x187 0x187 1 0x188, CaseEntry.mk 0x189 0x18a 1 0x256,
   CaseEntry.mk 0x18b 0x18b 1 0x18c, CaseEntry.mk 0x18e 0x18e 1 0x1dd,
   CaseEntry.mk 0x18f 0x18f 1 0x259, CaseEntry.mk 0x190 0x190 1 0x25b,
   CaseEntry.mk 0x191 0x191 1 0x192, CaseEntry.mk 0x193 0x193 1 0x260,
   CaseEntry.mk 0x194 0x194 1 0x263, CaseEntry.mk 0x196 0x196 1 0x269,
   CaseEntry.mk 0x197 0x197 1 0x268, CaseEntry.mk 0x198 0x198 1 0x199,
   CaseEntry.mk 0x19c 0x19c 1 0x26f, CaseEntry.mk 0x19d 0x19d 1 0x272,
   CaseEntry.mk 0x19f 0x19f 1 0x275, CaseEntry.mk 0x1a0 0x1a4 2 0x1a1,
   CaseEntry.mk 0x1a6 0x1a6 1 0x280, CaseEntry.mk 0x1a7 0x1a7 1 0x1a8,
   CaseEntry.mk 0x1a9 0x1a9 1 0x283, CaseEntry.mk 0x1ac 0x1ac 1 0x1ad,
   CaseEntry.mk 0x1ae 0x1ae 1 0x288, CaseEntry.mk 0x1af 0x1af 1 0x1b0,
   CaseEntry.mk 0x1b1 0x1b2 1 0x28a, CaseEntry.mk 0x1b3 0x1b5 2 0x1b4,
   CaseEntry.mk 0x1b7 0x1b7 1 0x292, CaseEntry.mk 0x1b8 0x1b8 1 0x1b9,
   CaseEntry.mk 0x1bc 0x1bc 1 0x1bd, CaseEntry.mk 0x1c4 0x1c4 1 0x1c6,
   CaseEntry.mk 0x1c5 0x1c5 1 0x1c6, CaseEntry.mk 0x1c7 0x1c7 1 0x1c9,
   CaseEntry.mk 0x1c8 0x1c8 1 0x1c9, CaseEntry.mk 0x1ca 0x1ca 1 0x1cc,
   CaseEntry.mk 0x1cb 0x1db 2 0x1cc, CaseEntry.mk 0x1de 0x1ee 2 0x1df,
   CaseEntry.mk 0x1f1 0x1f1 1 0x1f3, CaseEntry.mk 0x1f2 0x1f4 2 0x1f3,
   CaseEntry.mk 0x1f6 0x1f6 1 0x195, CaseEntry.mk 0x1f7 0x1f7 1 0x1bf,
   CaseEntry.mk 0x1f8 0x21e 2 0x1f9, CaseEntry.mk 0x220 0x220 1 0x19e,
   CaseEntry.mk 0x222 0x232 2 0x223, CaseEntry.mk 0x23a 0x23a 1 0x2c65,
   CaseEntry.mk 0x23b 0x23b 1 0x23c, CaseEntry.mk 0x23d 0x23d 1 0x19a,
   CaseEntry.mk 0x23e 0x23e 1 0x2c66, CaseEntry.mk 0x241 0x241 1 0x242,
   CaseEntry.mk 0x243 0x243 1 0x180, CaseEntry.mk 0x244 0x244 1 0x289,
   CaseEntry.mk 0x245 0x245 1 0x28c, CaseEntry.mk 0x246 0x24e 2 0x247,
   CaseEntry.mk 0x370 0x372 2 0x371, CaseEntry.mk 0x376 0x376 1 0x377,
   CaseEntry.mk 0x37f 0x37f 1 0x3f3, CaseEntry.mk 0x386 0x386 1 0x3ac,
   CaseEntry.mk 0x388 0x38a 1 0x3ad, CaseEntry.mk 0x38c 0x38c 1 0x3cc,
   CaseEntry.mk 0x38e 0x38f 1 0x3cd, CaseEntry.mk 0x391 0x3a1 1 0x3b1,
   CaseEntry.mk 0x3a3 0x3ab 1 0x3c3, CaseEntry.mk 0x3cf 0x3cf 1 0x3d7,
   CaseEntry.mk 0x3d8 0x3ee 2 0x3d9, CaseEntry.mk 0x3f4 0x3f4 1 0x3b8,
   CaseEntry.mk 0x3f7 0x3f7 1 0x3f8, CaseEntry.mk 0x3f9 0x3f9 1 0x3f2,
   CaseEntry.mk 0x3fa 0x3fa 1 0x3fb, CaseEntry.mk 0x3fd 0x3ff 1 0x37b,
   CaseEntry.mk 0x400 0x40f 1 0x450, CaseEntry.mk 0x410 0x42f 1 0x430,
   CaseEntry.mk 0x460 0x480 2 0x461, CaseEntry.mk 0x48a 0x4be 2 0x48b,
   CaseEntry.mk 0x4c0 0x4c0 1 0x4cf, CaseEntry.mk 0x4c1 0x4cd 2 0x4c2,
   CaseEntry.mk 0x4d0 0x52e 2 0x4d1, CaseEntry.mk 0x531 0x556 1 0x561,
   CaseEntry.mk 0x10a0 0x10c5 1 0x2d00, CaseEntry.mk 0x10c7 0x10c7 1 0x2d27,
   CaseEntry.mk 0x10cd 0x10cd 1 0x2d2d, CaseEntry.mk 0x13a0 0x13ef 1 0xab70,
   CaseEntry.mk 0x13f0 0x13f5 1 0x13f8, CaseEntry.mk 0x1c90 0x1cba 1 0x10d0,
   CaseEntry.mk 0x1cbd 0x1cbf 1 0x10fd, CaseEntry.mk 0x1e00 0x1e94 2 0x1e01,
   CaseEntry.mk 0x1e9e 0x1e9e 1 0xdf, CaseEntry.mk 0x1ea0 0x1efe 2 0x1ea1,
   CaseEntry.mk 0x1f08 0x1f0f 1 0x1f00, CaseEntry.mk 0x1f18 0x1f1d 1 0x1f10,
   CaseEntry.mk 0x1f28 0x1f2f 1 0x1f20, CaseEntry.mk 0x1f38 0x1f3f 1 0x1f30,
   CaseEntry.mk 0x1f48 0x1f4d 1 0x1f40, CaseEntry.mk 0x1f59 0x1f5f 2 0x1f51,
   CaseEntry.mk 0x1f68 0x1f6f 1 0x1f60, CaseEntry.mk 0x1f88 0x1f8f 1 0x1f80,
   CaseEntry.mk 0x1f98 0x1f9f 1 0x1f90, CaseEntry.mk 0x1fa8 0x1faf 1 0x1fa0,
   CaseEntry.mk 0x1fb8 0x1fb9 1 0x1fb0, CaseEntry.mk 0x1fba 0x1fbb 1 0x1f70,
   CaseEntry.mk 0x1fbc 0x1fbc 1 0x1fb3, CaseEntry.mk 0x1fc8 0x1fcb 1 0x1f72,
   CaseEntry.mk 0x1fcc 0x1fcc 1 0x1fc3, CaseEntry.mk 0x1fd8 0x1fd9 1 0x1fd0,
   CaseEntry.mk 0x1fda 0x1fdb 1 0x1f76, CaseEntry.mk 0x1fe8 0x1fe9 1 0x1fe0,
   CaseEntry.mk 0x1fea 0x1feb 1 0x1f7a, CaseEntry.mk 0x1fec 0x1fec 1 0x1fe5,
   CaseEntry.mk 0x1ff8 0x1ff9 1 0x1f78, CaseEntry.mk 0x1ffa 0x1ffb 1 0x1f7c,
   CaseEntry.mk 0x1ffc 0x1ffc 1 0x1ff3, CaseEntry.mk 0x2126 0x2126 1 0x3c9,
   CaseEntry.mk 0x212a 0x212a 1 0x6b, CaseEntry.mk 0x212b 0x212b 1 0xe5,
   CaseEntry.mk 0x2132 0x2132 1 0x214e, CaseEntry.mk 0x2160 0x216f 1 0x2170,
   CaseEntry.mk 0x2183 0x2183 1 0x2184, CaseEntry.mk 0x24b6 0x24cf 1 0x24d0,
   CaseEntry.mk 0x2c00 0x2c2f 1 0x2c30, CaseEntry.mk 0x2c60 0x2c60 1 0x2c61,
   CaseEntry.mk 0x2c62 0x2c62 1 0x26b, CaseEntry.mk 0x2c63 0x2c63 1 0x1d7d,
   CaseEntry.mk 0x2c64 0x2c64 1 0x27d, CaseEntry.mk 0x2c67 0x2c6b 2 0x2c68,
   CaseEntry.mk 0x2c6d 0x2c6d 1 0x251, CaseEntry.mk 0x2c6e 0x2c6e 1 0x271,
   CaseEntry.mk 0x2c6f 0x2c6f 1 0x250, CaseEntry.mk 0x2c70 0x2c70 1 0x252,
   CaseEntry.mk 0x2c72 0x2c72 1 0x2c73, CaseEntry.mk 0x2c75 0x2c75 1 0x2c76,
   CaseEntry.mk 0x2c7e 0x2c7f 1 0x23f, CaseEntry.mk 0x2c80 0x2ce2 2 0x2c81,
   CaseEntry.mk 0x2ceb 0x2ced 2 0x2cec, CaseEntry.mk 0x2cf2 0x2cf2 1 0x2cf3,
   CaseEntry.mk 0xa640 0xa66c 2 0xa641, CaseEntry.mk 0xa680 0xa69a 2 0xa681,
   CaseEntry.mk 0xa722 0xa72e 2 0xa723, CaseEntry.mk 0xa732 0xa76e 2 0xa733,
   CaseEntry.mk 0xa779 0xa77b 2 0xa77a, CaseEntry.mk 0xa77d 0xa77d 1 0x1d79,
   CaseEntry.mk 0xa77e 0xa786 2 0xa77f, CaseEntry.mk 0xa78b 0xa78b 1 0xa78c,
   CaseEntry.mk 0xa78d 0xa78d 1 0x265, CaseEntry.mk 0xa790 0xa792 2 0xa791,
   CaseEntry.mk 0xa796 0xa7a8 2 0xa797, CaseEntry.mk 0xa7aa 0xa7aa 1 0x266,
   CaseEntry.mk 0xa7ab 0xa7ab 1 0x25c, CaseEntry.mk 0xa7ac 0xa7ac 1 0x261,
   CaseEntry.mk 0xa7ad 0xa7ad 1 0x26c, CaseEntry.mk 0xa7ae 0xa7ae 1 0x26a,
   CaseEntry.mk 0xa7b0 0xa7b0 1 0x29e, CaseEntry.mk 0xa7b1 0xa7b1 1 0x287,
   CaseEntry.mk 0xa7b2 0xa7b2 1 0x29d, CaseEntry.mk 0xa7b3 0xa7b3 1 0xab53,
   CaseEntry.mk 0xa7b4 0xa7c2 2 0xa7b5, CaseEntry.mk 0xa7c4 0xa7c4 1 0xa794,
   CaseEntry.mk 0xa7c5 0xa7c5 1 0x282, CaseEntry.mk 0xa7c6 0xa7c6 1 0x1d8e,
   CaseEntry.mk 0xa7c7 0xa7c9 2 0xa7c8, CaseEntry.mk 0xa7d0 0xa7d0 1 0xa7d1,
   CaseEntry.mk 0xa7d6 0xa7d8 2 0xa7d7, CaseEntry.mk 0xa7f5 0xa7f5 1 0xa7f6,
   CaseEntry.mk 0xff21 0xff3a 1 0xff41, CaseEntry.mk 0x10400 0x10427 1 0x10428,
   CaseEntry.mk 0x104b0 0x104d3 1 0x104d8, CaseEntry.mk 0x10570 0x1057a 1 0x10597,
   CaseEntry.mk 0x1057c 0x1058a 1 0x105a3, CaseEntry.mk 0x1058c 0x10592 1 0x105b3,
   CaseEntry.mk 0x10594 0x10595 1 0x105bb, CaseEntry.mk 0x10c80 0x10cb2 1 0x10cc0,
   CaseEntry.mk 0x118a0 0x118bf 1 0x118c0, CaseEntry.mk 0x16e40 0x16e5f 1 0x16e60,
   CaseEntry.mk 0x1e900 0x1e921 1 0x1e922]

/-- Simple lower-case mapping on code points: table lookup, identity off
the table. -/
def lowerNat (n : Nat) : Nat :=
  match lowerTable.find? (fun e => inEntry e n) with
  | some e => applyEntry e n
  | none => n

/-- Lower-casing of one character, embedding the per-rune action of
strings.ToLower. -/
def lowerChar (c : Char) : Char := Char.ofNat (lowerNat c.toNat)

/-- Image interval of a table range consists of valid unicode scalar
values (below the surrogates, or above them and below 0x110000). -/
def targetsValid (e : CaseEntry) : Bool :=
  e.tlo + (e.hi - e.lo) < 0xd800 ||
    (0xe000 ≤ e.tlo && e.tlo + (e.hi - e.lo) < 0x110000)

/-- Sufficient decidable condition for the lower-case image of one table
range to avoid another table range entirely: the image interval lies fully
before or after the other range, or both ranges have step two and opposite
parity, or the first range is a single point whose image is checked
directly. -/
def imageAvoids (e e2 : CaseEntry) : Bool :=
  (e.tlo + (e.hi - e.lo) < e2.lo) || (e2.hi < e.tlo) ||
    (e.step == 2 && e2.step == 2 && (e.tlo + e2.lo) % 2 == 1) ||
    (e.lo == e.hi && !(inEntry e2 e.tlo))

/-- The twenty-five code points of the Unicode White_Space property, the
set accepted by unicode.IsSpace and trimmed by strings.TrimSpace. -/
def wsPoints : List Nat :=
  [9, 10, 11, 12, 13, 32, 133, 160, 0x1680, 0x2000, 0x2001, 0x2002, 0x2003, 0x2004, 0x2005,
   0x2006, 0x2007, 0x2008, 0x2009, 0x200a, 0x2028, 0x2029, 0x202f, 0x205f, 0x3000]

/-- Whitespace test of strings.TrimSpace on a code point: the Unicode
White_Space property, as decided by unicode.IsSpace. -/
def isSpaceNat (n : Nat) : Bool :=
  (9 ≤ n && n ≤ 13) || n == 32 || n == 133 || n == 160 || n == 0x1680 ||
    (0x2000 ≤ n && n ≤ 0x200a) || n == 0x2028 || n == 0x2029 || n == 0x202f ||
    n == 0x205f || n == 0x3000

/-- Whitespace test on characters. -/
def isSpaceChar (c : Char) : Bool := isSpaceNat c.toNat

/-- strings.ToLower on a character list. -/
def toLowerL (s : List Char) : List Char := s.map lowerChar

/-- Leading-whitespace removal. -/
def trimLeftL (s : List Char) : List Char := s.dropWhile isSpaceChar

/-- Trailing-whitespace removal. -/
def trimRightL (s : List Char) : List Char := (s.reverse.dropWhile isSpaceChar).reverse

/-- strings.TrimSpace on a character list. -/
def trimSpaceL (s : List Char) : List Char := trimRightL (trimLeftL s)

/-- The switch of ParseSignerStatus, on the already-normalised character
list. -/
def parseSignerCore (n : List Char) : SignerStatus :=
  if n = "success".data then SignerStatusSuccess
  else if n = "on_hold".data then SignerStatusOnHold
  else if n = "signed".data then SignerStatusSigned
  else if n = "awaiting_signature".data then SignerStatusAwaitingSignature
  else if n = "declined".data then SignerStatusDeclined
  else if n = "error_unknown".data then SignerStatusErrorUnknown
  else if n = "error_file".data then SignerStatusErrorFile
  else if n = "error_component_position".data then SignerStatusErrorComponentPosition
  else if n = "error_text_tag".data then SignerStatusErrorTextTag
  else if n = "on_hold_by_requester".data then SignerStatusOnHoldByRequester
  else if n = "error_invalid_email".data then SignerStatusErrorInvalidEmail
  else if n = "expired".data then SignerStatusExpired
  else SignerStatusUnknownEnum

/-- ParseSignerStatus from the source: switch on the trimmed, lower-cased
input, defaulting to the unknown enum value. -/
def ParseSignerStatus (s : String) : SignerStatus :=
  parseSignerCore (trimSpaceL (toLowerL s.data))

/-- UnmarshalJSON of SignerStatus from the source: unmarshal the raw JSON
value into a Go string, then parse it; a JSON null leaves the zero-valued
string which then parses to the unknown enum value. -/
def SignerStatus.unmarshalJSON (j : Json) : Except String SignerStatus :=
  match j with
  | Json.str s => Except.ok (ParseSignerStatus s)
  | Json.null => Except.ok (ParseSignerStatus "")
  | _ => Except.error "cannot unmarshal value into string"

/-- A round trip through the JSON encoding of one warning decodes to the
original warning. -/
theorem decodeWarning_warningJson (w : WarningResponse) :
    decodeWarning (warningJson w) = Except.ok w := rfl

/-- A round trip through the JSON encoding of a warning list decodes to the
original list. -/
theorem decodeWarningList_map (ws : List WarningResponse) :
    decodeWarningList (ws.map warningJson) = Except.ok ws := by
  induction ws with
  | nil => rfl
  | cons w t ih =>
    simp only [List.map_cons, decodeWarningList, decodeWarning_warningJson, ih]

/-- C1: for every non-2xx HTTP status and every body forming a well-formed
error envelope (the body text is valid JSON and decodes into the
ErrorResponse struct), parseErrorResponse returns the structured API error
whose Status is the HTTP status passed in — never a value taken from the
body, since the Status field carries the json dash tag — and whose message,
optional path, and name come from the parsed body. -/
theorem parseErrorResponse_wellFormed_status (body : RawBody) (s : Int) (j : Json)
    (e : ErrorResponseError) (hj : body.json = some j)
    (hd : decodeErrorResponse j = Except.ok e) :
    parseErrorResponse body s =
      DSError.api { Status := s, ErrorMsg := e.ErrorMsg, ErrorPath := e.ErrorPath,
                    ErrorName := e.ErrorName } := by
  simp only [parseErrorResponse, unmarshalErrorBody, hj, hd]

/-- Witness for C1 at a concrete 404 envelope. -/
theorem parseErrorResponse_wellFormed_status_witness :
    parseErrorResponse
      ⟨"irrelevant",
        some (Json.obj [("error",
          Json.obj [("error_msg", Json.str "Signature request not found"),
                    ("error_name", Json.str "not_found")])])⟩ 404 =
      DSError.api { Status := 404, ErrorMsg := "Signature request not found",
                    ErrorPath := none, ErrorName := "not_found" } :=
  parseErrorResponse_wellFormed_status _ 404 _
    { Status := 0, ErrorMsg := "Signature request not found", ErrorPath := none,
      ErrorName := "not_found" } rfl rfl

/-- C2: for every non-2xx HTTP status and every body whose deserialization
into the error envelope fails, parseErrorResponse returns a ClientError
whose StatusCode equals the HTTP status, whose message carries the raw body
text, and whose cause is the underlying parse failure. -/
theorem parseErrorResponse_malformed_clientError (body : RawBody) (s : Int) (m : String)
    (hd : unmarshalErrorBody body = Except.error m) :
    parseErrorResponse body s =
      DSError.client { Message := "failed to parse error response: " ++ body.text,
                       StatusCode := s, Err := some m } := by
  simp only [parseErrorResponse, NewClientError, hd]

/-- Witness for C2 at a concrete malformed body. -/
theorem parseErrorResponse_malformed_clientError_witness :
    parseErrorResponse ⟨"oops not json", none⟩ 500 =
      DSError.client { Message := "failed to parse error response: oops not json",
                       StatusCode := 500, Err := some "invalid character in JSON text" } :=
  parseErrorResponse_malformed_clientError _ 500 _ rfl

/-- C8: for every non-2xx response whose body is a valid JSON object
without an error key, parseErrorResponse still returns the structured API
error — with empty name and message and the HTTP status set — and not a
ClientError, because decoding such a body into the envelope struct succeeds
with zero-valued fields. -/
theorem parseErrorResponse_noErrorKey (body : RawBody) (s : Int)
    (kvs : List (String × Json)) (hj : body.json = some (Json.obj kvs))
    (hk : lookupLast kvs "error" = none) :
    parseErrorResponse body s =
      DSError.api { Status := s, ErrorMsg := "", ErrorPath := none, ErrorName := "" } := by
  simp only [parseErrorResponse, unmarshalErrorBody, decodeErrorResponse, hj, hk]

/-- Witness for C8 at the empty-object body. -/
theorem parseErrorResponse_noErrorKey_witness :
    parseErrorResponse ⟨"empty object", some (Json.obj [])⟩ 503 =
      DSError.api { Status := 503, ErrorMsg := "", ErrorPath := none, ErrorName := "" } :=
  parseErrorResponse_noErrorKey _ 503 [] rfl rfl

/-- C4: for every body that deserializes as a JSON object lacking the
requested key, parseResponse fails with the missing-key error naming the
expected key, and never returns any payload. -/
theorem parseResponse_missingKey {T : Type} (dec : Json → Except String T)
    (body : RawBody) (key : String) (j : Json) (kvs : List (String × Json))
    (hj : body.json = some j) (hm : asMap j = Except.ok kvs)
    (hk : lookupLast kvs key = none) :
    parseResponse dec body key = Except.error (missingKeyMsg key) ∧
      ∀ v ws, parseResponse dec body key ≠ Except.ok (v, ws) := by
  have h : parseResponse dec body key = Except.error (missingKeyMsg key) := by
    simp only [parseResponse, hj, hm, hk]
  exact ⟨h, fun v ws hcon => by rw [h] at hcon; exact Except.noConfusion hcon⟩

/-- Witness for C4 at a concrete object missing the requested key. -/
theorem parseResponse_missingKey_witness :
    parseResponse decodeNum
      ⟨"other key only", some (Json.obj [("other_key", Json.obj [])])⟩ "signature_request" =
      Except.error (missingKeyMsg "signature_request") :=
  (parseResponse_missingKey decodeNum _ "signature_request"
      (Json.obj [("other_key", Json.obj [])]) [("other_key", Json.obj [])] rfl rfl rfl).1

/-- C3: for every successful body whose requested key decodes to a valid
payload but whose top-level warnings field is present and fails to decode
as a warning list, parseResponse still succeeds and returns the payload
with an empty warnings list. -/
theorem parseResponse_malformedWarnings {T : Type} (dec : Json → Except String T)
    (body : RawBody) (key : String) (j : Json) (kvs : List (String × Json)) (p : Json)
    (v : T) (w : Json) (m : String) (hj : body.json = some j)
    (hm : asMap j = Except.ok kvs) (hk : lookupLast kvs key = some p)
    (hd : dec p = Except.ok v) (hw : lookupLast kvs "warnings" = some w)
    (hwe : decodeWarnings w = Except.error m) :
    parseResponse dec body key = Except.ok (v, []) := by
  simp only [parseResponse, hj, hm, hk, hd, hw, hwe]

/-- Witness for C3 at a concrete body whose warnings field is a number. -/
theorem parseResponse_malformedWarnings_witness :
    parseResponse decodeNum
      ⟨"payload with bad warnings",
        some (Json.obj [("signature_request", Json.num 7),
                        ("warnings", Json.num 3)])⟩ "signature_request" =
      Except.ok (7, []) :=
  parseResponse_malformedWarnings decodeNum _ "signature_request" _ _ _ 7 (Json.num 3)
    "cannot unmarshal value into warning slice" rfl rfl rfl rfl rfl rfl

/-- C6: for every successful body whose requested key decodes to a valid
payload, parseResponse returns the payload with an empty warnings list when
the warnings key is absent, and with a warnings list of equal length and
identical message and name in each position when the warnings key holds an
array of valid warning objects. -/
theorem parseResponse_success_warnings {T : Type} (dec : Json → Except String T)
    (body : RawBody) (key : String) (j : Json) (kvs : List (String × Json)) (p : Json)
    (v : T) (hj : body.json = some j) (hm : asMap j = Except.ok kvs)
    (hk : lookupLast kvs key = some p) (hd : dec p = Except.ok v) :
    (lookupLast kvs "warnings" = none → parseResponse dec body key = Except.ok (v, [])) ∧
      ∀ ws : List WarningResponse,
        lookupLast kvs "warnings" = some (Json.arr (ws.map warningJson)) →
        parseResponse dec body key = Except.ok (v, ws) := by
  constructor
  · intro hw
    simp only [parseResponse, hj, hm, hk, hd, hw]
  · intro ws hw
    simp only [parseResponse, hj, hm, hk, hd, hw, decodeWarnings, decodeWarningList_map]

/-- Witness for C6 at a concrete body with one warning. -/
theorem parseResponse_success_warnings_witness :
    parseResponse decodeNum
      ⟨"payload with one warning",
        some (Json.obj [("signature_request", Json.num 7),
          ("warnings", Json.arr [Json.obj [("warning_msg", Json.str "m"),
                                           ("warning_name", Json.str "n")]])])⟩
      "signature_request" =
      Except.ok (7, [{ WarningMsg := "m", WarningName := "n" }]) :=
  (parseResponse_success_warnings decodeNum _ "signature_request"
      (Json.obj [("signature_request", Json.num 7),
        ("warnings", Json.arr [Json.obj [("warning_msg", Json.str "m"),
                                         ("warning_name", Json.str "n")]])])
      [("signature_request", Json.num 7),
        ("warnings", Json.arr [Json.obj [("warning_msg", Json.str "m"),
                                         ("warning_name", Json.str "n")]])]
      (Json.num 7) 7 rfl rfl rfl rfl).2 [{ WarningMsg := "m", WarningName := "n" }] rfl

/-- C5: each status predicate is true exactly when the status code carried
by the error value equals its well-known status (404, 400, 401); in
particular each is false for an error with status 0 and false for a value
that is not one of the two known error variants. -/
theorem errorPredicates_status_iff (e : DSError) :
    ((IsNotFound e = true) ↔ statusOf e = some 404) ∧
      ((IsBadRequest e = true) ↔ statusOf e = some 400) ∧
      ((IsUnauthorized e = true) ↔ statusOf e = some 401) ∧
      (statusOf e = some 0 →
        IsNotFound e = false ∧ IsBadRequest e = false ∧ IsUnauthorized e = false) ∧
      (statusOf e = none →
        IsNotFound e = false ∧ IsBadRequest e = false ∧ IsUnauthorized e = false) := by
  cases e <;>
    simp [IsNotFound, IsBadRequest, IsUnauthorized, statusOf] <;>
    omega

/-- Witness for C5 at a concrete client error with status 404. -/
theorem errorPredicates_status_iff_witness :
    IsNotFound (DSError.client { Message := "gone", StatusCode := 404, Err := none }) = true :=
  (errorPredicates_status_iff
      (DSError.client { Message := "gone", StatusCode := 404, Err := none })).1.mpr rfl

/-- C7: a freshly constructed request with no setter applied serialises
with only the signers and template ids keys; every unset optional field is
omitted. -/
theorem newSendSignatureRequest_marshalKeys (signers : List SubSignatureRequestTemplateSigner)
    (templateIDs : List String) :
    (NewSendSignatureRequest signers templateIDs).marshalKeys =
      ["signers", "template_ids"] := rfl

/-- Witness for C7 at the empty constructor arguments. -/
theorem newSendSignatureRequest_marshalKeys_witness :
    (NewSendSignatureRequest [] []).marshalKeys = ["signers", "template_ids"] :=
  newSendSignatureRequest_marshalKeys [] []

/-- Every table range has a valid image interval. -/
theorem lowerTable_targetsValid : lowerTable.all targetsValid = true := by decide

set_option maxHeartbeats 4000000 in
set_option maxRecDepth 4000 in
/-- The lower-case image of every table range avoids every table range:
no lower-cased code point is itself lower-cased further. -/
theorem lowerTable_imageAvoids :
    (lowerTable.all fun e => lowerTable.all fun e2 => imageAvoids e e2) = true := by decide

/-- Whitespace code points are fixed by lower-casing. -/
theorem wsPoints_fixed : (wsPoints.all fun w => lowerNat w == w) = true := by decide

/-- No table range contains a whitespace code point. -/
theorem lowerTable_sources_not_ws :
    (lowerTable.all fun e => wsPoints.all fun w =>
      decide (w < e.lo) || decide (e.hi < w)) = true := by decide

/-- No image interval of a table range contains a whitespace code point. -/
theorem lowerTable_targets_not_ws :
    (lowerTable.all fun e => wsPoints.all fun w =>
      decide (w < e.tlo) || decide (e.tlo + (e.hi - e.lo) < w)) = true := by decide

/-- Conversion back to the code point of a character built from a valid
code point. -/
theorem toNat_ofNat_of_valid (n : Nat) (h : n.isValidChar) :
    (Char.ofNat n).toNat = n := by
  rw [Char.ofNat, dif_pos h]
  rfl

/-- The lower-case mapping either fixes a code point or acts through a
table range containing it. -/
theorem lowerNat_spec (n : Nat) :
    lowerNat n = n ∨
      ∃ e, e ∈ lowerTable ∧ inEntry e n = true ∧ lowerNat n = applyEntry e n := by
  unfold lowerNat
  cases hf : lowerTable.find? (fun e => inEntry e n) with
  | none => exact Or.inl rfl
  | some e =>
    have hp := List.find?_some hf
    exact Or.inr ⟨e, List.mem_of_find?_eq_some hf, by simpa using hp, rfl⟩

/-- Soundness of the decidable avoidance condition: when it holds, no
member image of the first range lies in the second range. -/
theorem imageAvoids_sound (e e2 : CaseEntry) (h : imageAvoids e e2 = true) (n : Nat)
    (hn : inEntry e n = true) : inEntry e2 (applyEntry e n) = false := by
  have hn2 : (e.lo ≤ n ∧ n ≤ e.hi) ∧ (n - e.lo) % e.step = 0 := by
    simpa [inEntry] using hn
  rw [Bool.eq_false_iff]
  intro hc
  have hc2 : (e2.lo ≤ e.tlo + (n - e.lo) ∧ e.tlo + (n - e.lo) ≤ e2.hi) ∧
      (e.tlo + (n - e.lo) - e2.lo) % e2.step = 0 := by
    simpa [inEntry, applyEntry] using hc
  have h2 : ((e.tlo + (e.hi - e.lo) < e2.lo ∨ e2.hi < e.tlo) ∨
      (e.step = 2 ∧ e2.step = 2) ∧ (e.tlo + e2.lo) % 2 = 1) ∨
      e.lo = e.hi ∧
        ((e.tlo < e2.lo ∨ e2.hi < e.tlo) ∨ ¬(e.tlo - e2.lo) % e2.step = 0) := by
    simpa [imageAvoids, inEntry] using h
  rcases h2 with ((h2 | h2) | ⟨⟨hs1, hs2⟩, hp⟩) | ⟨hlh, hrest⟩
  · omega
  · omega
  · rw [hs1] at hn2
    rw [hs2] at hc2
    omega
  · have he : e.tlo + (n - e.lo) = e.tlo := by omega
    rw [he] at hc2
    rcases hrest with (h3 | h3) | h3
    · omega
    · omega
    · exact h3 hc2.2

/-- Applying the lower-case mapping twice is the same as applying it
once. -/
theorem lowerNat_lowerNat (n : Nat) : lowerNat (lowerNat n) = lowerNat n := by
  rcases lowerNat_spec n with h | ⟨e, he, hin, heq⟩
  · rw [h]
    exact h
  · rw [heq]
    have hnone : lowerTable.find? (fun e2 => inEntry e2 (applyEntry e n)) = none := by
      rw [List.find?_eq_none]
      intro e2 he2
      have hav : imageAvoids e e2 = true :=
        List.all_eq_true.mp (List.all_eq_true.mp lowerTable_imageAvoids e he) e2 he2
      simp [imageAvoids_sound e e2 hav n hin]
    unfold lowerNat
    rw [hnone]

/-- The lower-case mapping preserves validity of code points. -/
theorem lowerNat_isValidChar (n : Nat) (h : n.isValidChar) :
    (lowerNat n).isValidChar := by
  rcases lowerNat_spec n with h1 | ⟨e, he, hin, heq⟩
  · rw [h1]
    exact h
  · rw [heq]
    have hv := List.all_eq_true.mp lowerTable_targetsValid e he
    have hin2 : (e.lo ≤ n ∧ n ≤ e.hi) ∧ (n - e.lo) % e.step = 0 := by
      simpa [inEntry] using hin
    simp only [targetsValid, Bool.or_eq_true, Bool.and_eq_true, decide_eq_true_eq] at hv
    simp only [applyEntry, Nat.isValidChar]
    omega

/-- Code point of a lower-cased character. -/
theorem toNat_lowerChar (c : Char) : (lowerChar c).toNat = lowerNat c.toNat := by
  unfold lowerChar
  exact toNat_ofNat_of_valid (lowerNat c.toNat) (lowerNat_isValidChar c.toNat c.valid)

/-- Lower-casing is idempotent. -/
theorem lowerChar_idem (c : Char) : lowerChar (lowerChar c) = lowerChar c := by
  show Char.ofNat (lowerNat ((lowerChar c).toNat)) = lowerChar c
  rw [toNat_lowerChar, lowerNat_lowerNat]
  rfl

/-- Whitespace code points all appear in the whitespace list. -/
theorem isSpaceNat_mem (n : Nat) (h : isSpaceNat n = true) : n ∈ wsPoints := by
  simp only [isSpaceNat, Bool.or_eq_true, Bool.and_eq_true, decide_eq_true_eq,
    beq_iff_eq] at h
  simp only [wsPoints, List.mem_cons, List.not_mem_nil, or_false]
  omega

/-- Lower-casing preserves the whitespace test. -/
theorem isSpaceChar_lowerChar (c : Char) : isSpaceChar (lowerChar c) = isSpaceChar c := by
  unfold isSpaceChar
  rw [toNat_lowerChar]
  rcases lowerNat_spec c.toNat with h | ⟨e, he, hin, heq⟩
  · rw [h]
  · rw [heq]
    have hin2 : (e.lo ≤ c.toNat ∧ c.toNat ≤ e.hi) ∧ (c.toNat - e.lo) % e.step = 0 := by
      simpa [inEntry] using hin
    have hsrc : isSpaceNat c.toNat = false := by
      rw [Bool.eq_false_iff]
      intro hx
      have hmem := isSpaceNat_mem c.toNat hx
      have hw := List.all_eq_true.mp
        (List.all_eq_true.mp lowerTable_sources_not_ws e he) c.toNat hmem
      simp only [Bool.or_eq_true, decide_eq_true_eq] at hw
      omega
    have htgt : isSpaceNat (applyEntry e c.toNat) = false := by
      rw [Bool.eq_false_iff]
      intro hx
      have hmem := isSpaceNat_mem (applyEntry e c.toNat) hx
      have hw := List.all_eq_true.mp
        (List.all_eq_true.mp lowerTable_targets_not_ws e he) (applyEntry e c.toNat) hmem
      simp only [Bool.or_eq_true, decide_eq_true_eq, applyEntry] at hw
      simp only [applyEntry] at hmem
      omega
    rw [hsrc, htgt]

/-- Lower-casing a list is idempotent. -/
theorem toLowerL_idem (s : List Char) : toLowerL (toLowerL s) = toLowerL s := by
  induction s with
  | nil => rfl
  | cons a t ih =>
    simp only [toLowerL, List.map_cons] at ih ⊢
    rw [lowerChar_idem, ih]

/-- Whitespace dropping commutes with lower-casing. -/
theorem dropWhile_toLowerL (s : List Char) :
    List.dropWhile isSpaceChar (toLowerL s) = toLowerL (List.dropWhile isSpaceChar s) := by
  induction s with
  | nil => rfl
  | cons a t ih =>
    cases hb : isSpaceChar a with
    | true =>
      have hb2 : isSpaceChar (lowerChar a) = true := by rw [isSpaceChar_lowerChar, hb]
      simp only [toLowerL, List.map_cons] at ih ⊢
      rw [List.dropWhile_cons_of_pos hb2, List.dropWhile_cons_of_pos hb, ih]
    | false =>
      have hb2 : isSpaceChar (lowerChar a) = false := by rw [isSpaceChar_lowerChar, hb]
      simp only [toLowerL, List.map_cons] at ih ⊢
      rw [List.dropWhile_cons_of_neg (by simp [hb2]), List.dropWhile_cons_of_neg (by simp [hb]),
        List.map_cons]

/-- Left trimming commutes with lower-casing. -/
theorem trimLeftL_toLowerL (s : List Char) :
    trimLeftL (toLowerL s) = toLowerL (trimLeftL s) :=
  dropWhile_toLowerL s

/-- Right trimming commutes with lower-casing. -/
theorem trimRightL_toLowerL (s : List Char) :
    trimRightL (toLowerL s) = toLowerL (trimRightL s) := by
  unfold trimRightL
  rw [show (toLowerL s).reverse = toLowerL s.reverse by simp [toLowerL, List.map_reverse]]
  rw [dropWhile_toLowerL]
  simp [toLowerL, List.map_reverse]

/-- Trimming commutes with lower-casing. -/
theorem trimSpaceL_toLowerL (s : List Char) :
    trimSpaceL (toLowerL s) = toLowerL (trimSpaceL s) := by
  unfold trimSpaceL
  rw [trimLeftL_toLowerL, trimRightL_toLowerL]

/-- Dropping a satisfied run twice is the same as dropping it once. -/
theorem dropWhile_dropWhile (p : Char → Bool) (l : List Char) :
    List.dropWhile p (List.dropWhile p l) = List.dropWhile p l := by
  induction l with
  | nil => rfl
  | cons a t ih =>
    cases hb : p a with
    | true =>
      rw [List.dropWhile_cons_of_pos hb]
      exact ih
    | false =>
      rw [List.dropWhile_cons_of_neg (by simp [hb]), List.dropWhile_cons_of_neg (by simp [hb])]

/-- Dropping a run never lengthens a list. -/
theorem dropWhile_length_le (p : Char → Bool) (l : List Char) :
    (List.dropWhile p l).length ≤ l.length := by
  induction l with
  | nil => simp
  | cons a t ih =>
    cases hb : p a with
    | true =>
      rw [List.dropWhile_cons_of_pos hb, List.length_cons]
      omega
    | false =>
      rw [List.dropWhile_cons_of_neg (by simp [hb])]

/-- The dropped run can be put back in front. -/
theorem dropWhile_decomp (p : Char → Bool) (l : List Char) :
    ∃ r, r ++ List.dropWhile p l = l := by
  induction l with
  | nil => exact ⟨[], rfl⟩
  | cons a t ih =>
    cases hb : p a with
    | true =>
      obtain ⟨r, hr⟩ := ih
      exact ⟨a :: r, by rw [List.dropWhile_cons_of_pos hb, List.cons_append, hr]⟩
    | false =>
      exact ⟨[], by rw [List.dropWhile_cons_of_neg (by simp [hb]), List.nil_append]⟩

/-- Right trimming removes a suffix only. -/
theorem trimRightL_decomp (l : List Char) : ∃ q, trimRightL l ++ q = l := by
  obtain ⟨r, hr⟩ := dropWhile_decomp isSpaceChar l.reverse
  have h2 := congrArg List.reverse hr
  rw [List.reverse_append, List.reverse_reverse] at h2
  exact ⟨r.reverse, h2⟩

/-- Right trimming is idempotent. -/
theorem trimRightL_idem (l : List Char) : trimRightL (trimRightL l) = trimRightL l := by
  unfold trimRightL
  rw [List.reverse_reverse, dropWhile_dropWhile]

/-- A left-trimmed list stays left-trimmed after right trimming. -/
theorem trimLeftL_trimRightL (l : List Char) (h : trimLeftL l = l) :
    trimLeftL (trimRightL l) = trimRightL l := by
  obtain ⟨q, hq⟩ := trimRightL_decomp l
  cases htr : trimRightL l with
  | nil => rfl
  | cons a t =>
    have ha : isSpaceChar a = false := by
      rw [htr] at hq
      cases hx : isSpaceChar a with
      | false => rfl
      | true =>
        exfalso
        have hl : l = a :: (t ++ q) := by
          rw [← hq]
          simp
        have h3 : trimLeftL l = List.dropWhile isSpaceChar (t ++ q) := by
          rw [hl]
          unfold trimLeftL
          exact List.dropWhile_cons_of_pos hx
        rw [h, hl] at h3
        have hlen := congrArg List.length h3
        have hle := dropWhile_length_le isSpaceChar (t ++ q)
        simp only [List.length_cons] at hlen
        omega
    unfold trimLeftL
    exact List.dropWhile_cons_of_neg (by simp [ha])

/-- Trimming is idempotent. -/
theorem trimSpaceL_idem (l : List Char) : trimSpaceL (trimSpaceL l) = trimSpaceL l := by
  unfold trimSpaceL
  rw [trimLeftL_trimRightL (trimLeftL l) (dropWhile_dropWhile isSpaceChar l)]
  exact trimRightL_idem (trimLeftL l)

/-- The trim-and-lower normalisation is idempotent. -/
theorem normStatus_idem (s : List Char) :
    trimSpaceL (toLowerL (trimSpaceL (toLowerL s))) = trimSpaceL (toLowerL s) := by
  rw [← trimSpaceL_toLowerL, toLowerL_idem, trimSpaceL_idem]

/-- C9: ParseSignerStatus is total and normalising: on every string it
agrees with itself applied to the lower-cased, trimmed input; every string
whose normal form is none of the twelve known status strings parses to the
unknown enum value; UnmarshalJSON succeeds on every JSON string value; and
each of the twelve known status strings parses to its constant. -/
theorem parseSignerStatus_total_normalized :
    (∀ s : String,
        ParseSignerStatus s = ParseSignerStatus (String.mk (trimSpaceL (toLowerL s.data)))) ∧
      (∀ s : String,
        (∀ k ∈ knownSignerStatusStrings, trimSpaceL (toLowerL s.data) ≠ k.data) →
        ParseSignerStatus s = SignerStatusUnknownEnum) ∧
      (∀ s : String,
        SignerStatus.unmarshalJSON (Json.str s) = Except.ok (ParseSignerStatus s)) ∧
      (ParseSignerStatus "success" = SignerStatusSuccess ∧
        ParseSignerStatus "on_hold" = SignerStatusOnHold ∧
        ParseSignerStatus "signed" = SignerStatusSigned ∧
        ParseSignerStatus "awaiting_signature" = SignerStatusAwaitingSignature ∧
        ParseSignerStatus "declined" = SignerStatusDeclined ∧
        ParseSignerStatus "error_unknown" = SignerStatusErrorUnknown ∧
        ParseSignerStatus "error_file" = SignerStatusErrorFile ∧
        ParseSignerStatus "error_component_position" = SignerStatusErrorComponentPosition ∧
        ParseSignerStatus "error_text_tag" = SignerStatusErrorTextTag ∧
        ParseSignerStatus "on_hold_by_requester" = SignerStatusOnHoldByRequester ∧
        ParseSignerStatus "error_invalid_email" = SignerStatusErrorInvalidEmail ∧
        ParseSignerStatus "expired" = SignerStatusExpired) := by
  refine ⟨?_, ?_, ?_, ?_⟩
  · intro s
    unfold ParseSignerStatus
    show parseSignerCore (trimSpaceL (toLowerL s.data)) =
      parseSignerCore (trimSpaceL (toLowerL (trimSpaceL (toLowerL s.data))))
    rw [normStatus_idem]
  · intro s hn
    unfold ParseSignerStatus parseSignerCore
    rw [if_neg (hn "success" (by decide)), if_neg (hn "on_hold" (by decide)),
      if_neg (hn "signed" (by decide)), if_neg (hn "awaiting_signature" (by decide)),
      if_neg (hn "declined" (by decide)), if_neg (hn "error_unknown" (by decide)),
      if_neg (hn "error_file" (by decide)),
      if_neg (hn "error_component_position" (by decide)),
      if_neg (hn "error_text_tag" (by decide)),
      if_neg (hn "on_hold_by_requester" (by decide)),
      if_neg (hn "error_invalid_email" (by decide)),
      if_neg (hn "expired" (by decide))]
  · intro s
    rfl
  · refine ⟨?_, ?_, ?_, ?_, ?_, ?_, ?_, ?_, ?_, ?_, ?_, ?_⟩ <;> decide

/-- Witness for C9: a string that is none of the twelve statuses parses to
the unknown enum value. -/
theorem parseSignerStatus_total_normalized_witness :
    ParseSignerStatus "bogus" = SignerStatusUnknownEnum :=
  parseSignerStatus_total_normalized.2.1 "bogus" (by decide)

/-- C10: each of the thirteen builder setters sets exactly its own field
to the supplied value and leaves every other field of the request
unchanged. -/
theorem withSetters_frame (s : SendSignatureRequest) (b1 b2 b3 : Bool)
    (ttl msg cid sru : String) (ccs : List SubCC) (cfs : List SubCustomField)
    (fls : List (List Nat)) (furls : List String) (md : List (String × String))
    (so : Option SubSigningOptions) :
      ((s.WithAllowDecline b1).AllowDecline = some b1 ∧
        (s.WithAllowDecline b1).Signers = s.Signers ∧
        (s.WithAllowDecline b1).TemplateIDs = s.TemplateIDs ∧
        (s.WithAllowDecline b1).CCs = s.CCs ∧
        (s.WithAllowDecline b1).ClientID = s.ClientID ∧
        (s.WithAllowDecline b1).CustomFields = s.CustomFields ∧
        (s.WithAllowDecline b1).Files = s.Files ∧
        (s.WithAllowDecline b1).FileURLs = s.FileURLs ∧
        (s.WithAllowDecline b1).IsEID = s.IsEID ∧
        (s.WithAllowDecline b1).Message = s.Message ∧
        (s.WithAllowDecline b1).Metadata = s.Metadata ∧
        (s.WithAllowDecline b1).SigningOptions = s.SigningOptions ∧
        (s.WithAllowDecline b1).SigningRedirectURL = s.SigningRedirectURL ∧
        (s.WithAllowDecline b1).TestMode = s.TestMode ∧
        (s.WithAllowDecline b1).Title = s.Title) ∧
      ((s.WithCCs ccs).CCs = ccs ∧
        (s.WithCCs ccs).Signers = s.Signers ∧
        (s.WithCCs ccs).TemplateIDs = s.TemplateIDs ∧
        (s.WithCCs ccs).AllowDecline = s.AllowDecline ∧
        (s.WithCCs ccs).ClientID = s.ClientID ∧
        (s.WithCCs ccs).CustomFields = s.CustomFields ∧
        (s.WithCCs ccs).Files = s.Files ∧
        (s.WithCCs ccs).FileURLs = s.FileURLs ∧
        (s.WithCCs ccs).IsEID = s.IsEID ∧
        (s.WithCCs ccs).Message = s.Message ∧
        (s.WithCCs ccs).Metadata = s.Metadata ∧
        (s.WithCCs ccs).SigningOptions = s.SigningOptions ∧
        (s.WithCCs ccs).SigningRedirectURL = s.SigningRedirectURL ∧
        (s.WithCCs ccs).TestMode = s.TestMode ∧
        (s.WithCCs ccs).Title = s.Title) ∧
      ((s.WithClientID cid).ClientID = some cid ∧
        (s.WithClientID cid).Signers = s.Signers ∧
        (s.WithClientID cid).TemplateIDs = s.TemplateIDs ∧
        (s.WithClientID cid).AllowDecline = s.AllowDecline ∧
        (s.WithClientID cid).CCs = s.CCs ∧
        (s.WithClientID cid).CustomFields = s.CustomFields ∧
        (s.WithClientID cid).Files = s.Files ∧
        (s.WithClientID cid).FileURLs = s.FileURLs ∧
        (s.WithClientID cid).IsEID = s.IsEID ∧
        (s.WithClientID cid).Message = s.Message ∧
        (s.WithClientID cid).Metadata = s.Metadata ∧
        (s.WithClientID cid).SigningOptions = s.SigningOptions ∧
        (s.WithClientID cid).SigningRedirectURL = s.SigningRedirectURL ∧
        (s.WithClientID cid).TestMode = s.TestMode ∧
        (s.WithClientID cid).Title = s.Title) ∧
      ((s.WithCustomFields cfs).CustomFields = cfs ∧
        (s.WithCustomFields cfs).Signers = s.Signers ∧
        (s.WithCustomFields cfs).TemplateIDs = s.TemplateIDs ∧
        (s.WithCustomFields cfs).AllowDecline = s.AllowDecline ∧
        (s.WithCustomFields cfs).CCs = s.CCs ∧
        (s.WithCustomFields cfs).ClientID = s.ClientID ∧
        (s.WithCustomFields cfs).Files = s.Files ∧
        (s.WithCustomFields cfs).FileURLs = s.FileURLs ∧
        (s.WithCustomFields cfs).IsEID = s.IsEID ∧
        (s.WithCustomFields cfs).Message = s.Message ∧
        (s.WithCustomFields cfs).Metadata = s.Metadata ∧
        (s.WithCustomFields cfs).SigningOptions = s.SigningOptions ∧
        (s.WithCustomFields cfs).SigningRedirectURL = s.SigningRedirectURL ∧
        (s.WithCustomFields cfs).TestMode = s.TestMode ∧
        (s.WithCustomFields cfs).Title = s.Title) ∧
      ((s.WithFiles fls).Files = fls ∧
        (s.WithFiles fls).Signers = s.Signers ∧
        (s.WithFiles fls).TemplateIDs = s.TemplateIDs ∧
        (s.WithFiles fls).AllowDecline = s.AllowDecline ∧
        (s.WithFiles fls).CCs = s.CCs ∧
        (s.WithFiles fls).ClientID = s.ClientID ∧
        (s.WithFiles fls).CustomFields = s.CustomFields ∧
        (s.WithFiles fls).FileURLs = s.FileURLs ∧
        (s.WithFiles fls).IsEID = s.IsEID ∧
        (s.WithFiles fls).Message = s.Message ∧
        (s.WithFiles fls).Metadata = s.Metadata ∧
        (s.WithFiles fls).SigningOptions = s.SigningOptions ∧
        (s.WithFiles fls).SigningRedirectURL = s.SigningRedirectURL ∧
        (s.WithFiles fls).TestMode = s.TestMode ∧
        (s.WithFiles fls).Title = s.Title) ∧
      ((s.WithFileURLs furls).FileURLs = furls ∧
        (s.WithFileURLs furls).Signers = s.Signers ∧
        (s.WithFileURLs furls).TemplateIDs = s.TemplateIDs ∧
        (s.WithFileURLs furls).AllowDecline = s.AllowDecline ∧
        (s.WithFileURLs furls).CCs = s.CCs ∧
        (s.WithFileURLs furls).ClientID = s.ClientID ∧
        (s.WithFileURLs furls).CustomFields = s.CustomFields ∧
        (s.WithFileURLs furls).Files = s.Files ∧
        (s.WithFileURLs furls).IsEID = s.IsEID ∧
        (s.WithFileURLs furls).Message = s.Message ∧
        (s.WithFileURLs furls).Metadata = s.Metadata ∧
        (s.WithFileURLs furls).SigningOptions = s.SigningOptions ∧
        (s.WithFileURLs furls).SigningRedirectURL = s.SigningRedirectURL ∧
        (s.WithFileURLs furls).TestMode = s.TestMode ∧
        (s.WithFileURLs furls).Title = s.Title) ∧
      ((s.WithIsEID b2).IsEID = some b2 ∧
        (s.WithIsEID b2).Signers = s.Signers ∧
        (s.WithIsEID b2).TemplateIDs = s.TemplateIDs ∧
        (s.WithIsEID b2).AllowDecline = s.AllowDecline ∧
        (s.WithIsEID b2).CCs = s.CCs ∧
        (s.WithIsEID b2).ClientID = s.ClientID ∧
        (s.WithIsEID b2).CustomFields = s.CustomFields ∧
        (s.WithIsEID b2).Files = s.Files ∧
        (s.WithIsEID b2).FileURLs = s.FileURLs ∧
        (s.WithIsEID b2).Message = s.Message ∧
        (s.WithIsEID b2).Metadata = s.Metadata ∧
        (s.WithIsEID b2).SigningOptions = s.SigningOptions ∧
        (s.WithIsEID b2).SigningRedirectURL = s.SigningRedirectURL ∧
        (s.WithIsEID b2).TestMode = s.TestMode ∧
        (s.WithIsEID b2).Title = s.Title) ∧
      ((s.WithMessage msg).Message = some msg ∧
        (s.WithMessage msg).Signers = s.Signers ∧
        (s.WithMessage msg).TemplateIDs = s.TemplateIDs ∧
        (s.WithMessage msg).AllowDecline = s.AllowDecline ∧
        (s.WithMessage msg).CCs = s.CCs ∧
        (s.WithMessage msg).ClientID = s.ClientID ∧
        (s.WithMessage msg).CustomFields = s.CustomFields ∧
        (s.WithMessage msg).Files = s.Files ∧
        (s.WithMessage msg).FileURLs = s.FileURLs ∧
        (s.WithMessage msg).IsEID = s.IsEID ∧
        (s.WithMessage msg).Metadata = s.Metadata ∧
        (s.WithMessage msg).SigningOptions = s.SigningOptions ∧
        (s.WithMessage msg).SigningRedirectURL = s.SigningRedirectURL ∧
        (s.WithMessage msg).TestMode = s.TestMode ∧
        (s.WithMessage msg).Title = s.Title) ∧
      ((s.WithMetadata md).Metadata = md ∧
        (s.WithMetadata md).Signers = s.Signers ∧
        (s.WithMetadata md).TemplateIDs = s.TemplateIDs ∧
        (s.WithMetadata md).AllowDecline = s.AllowDecline ∧
        (s.WithMetadata md).CCs = s.CCs ∧
        (s.WithMetadata md).ClientID = s.ClientID ∧
        (s.WithMetadata md).CustomFields = s.CustomFields ∧
        (s.WithMetadata md).Files = s.Files ∧
        (s.WithMetadata md).FileURLs = s.FileURLs ∧
        (s.WithMetadata md).IsEID = s.IsEID ∧
        (s.WithMetadata md).Message = s.Message ∧
        (s.WithMetadata md).SigningOptions = s.SigningOptions ∧
        (s.WithMetadata md).SigningRedirectURL = s.SigningRedirectURL ∧
        (s.WithMetadata md).TestMode = s.TestMode ∧
        (s.WithMetadata md).Title = s.Title) ∧
      ((s.WithSigningOptions so).SigningOptions = so ∧
        (s.WithSigningOptions so).Signers = s.Signers ∧
        (s.WithSigningOptions so).TemplateIDs = s.TemplateIDs ∧
        (s.WithSigningOptions so).AllowDecline = s.AllowDecline ∧
        (s.WithSigningOptions so).CCs = s.CCs ∧
        (s.WithSigningOptions so).ClientID = s.ClientID ∧
        (s.WithSigningOptions so).CustomFields = s.CustomFields ∧
        (s.WithSigningOptions so).Files = s.Files ∧
        (s.WithSigningOptions so).FileURLs = s.FileURLs ∧
        (s.WithSigningOptions so).IsEID = s.IsEID ∧
        (s.WithSigningOptions so).Message = s.Message ∧
        (s.WithSigningOptions so).Metadata = s.Metadata ∧
        (s.WithSigningOptions so).SigningRedirectURL = s.SigningRedirectURL ∧
        (s.WithSigningOptions so).TestMode = s.TestMode ∧
        (s.WithSigningOptions so).Title = s.Title) ∧
      ((s.WithSigningRedirectURL sru).SigningRedirectURL = some sru ∧
        (s.WithSigningRedirectURL sru).Signers = s.Signers ∧
        (s.WithSigningRedirectURL sru).TemplateIDs = s.TemplateIDs ∧
        (s.WithSigningRedirectURL sru).AllowDecline = s.AllowDecline ∧
        (s.WithSigningRedirectURL sru).CCs = s.CCs ∧
        (s.WithSigningRedirectURL sru).ClientID = s.ClientID ∧
        (s.WithSigningRedirectURL sru).CustomFields = s.CustomFields ∧
        (s.WithSigningRedirectURL sru).Files = s.Files ∧
        (s.WithSigningRedirectURL sru).FileURLs = s.FileURLs ∧
        (s.WithSigningRedirectURL sru).IsEID = s.IsEID ∧
        (s.WithSigningRedirectURL sru).Message = s.Message ∧
        (s.WithSigningRedirectURL sru).Metadata = s.Metadata ∧
        (s.WithSigningRedirectURL sru).SigningOptions = s.SigningOptions ∧
        (s.WithSigningRedirectURL sru).TestMode = s.TestMode ∧
        (s.WithSigningRedirectURL sru).Title = s.Title) ∧
      ((s.WithTestMode b3).TestMode = some b3 ∧
        (s.WithTestMode b3).Signers = s.Signers ∧
        (s.WithTestMode b3).TemplateIDs = s.TemplateIDs ∧
        (s.WithTestMode b3).AllowDecline = s.AllowDecline ∧
        (s.WithTestMode b3).CCs = s.CCs ∧
        (s.WithTestMode b3).ClientID = s.ClientID ∧
        (s.WithTestMode b3).CustomFields = s.CustomFields ∧
        (s.WithTestMode b3).Files = s.Files ∧
        (s.WithTestMode b3).FileURLs = s.FileURLs ∧
        (s.WithTestMode b3).IsEID = s.IsEID ∧
        (s.WithTestMode b3).Message = s.Message ∧
        (s.WithTestMode b3).Metadata = s.Metadata ∧
        (s.WithTestMode b3).SigningOptions = s.SigningOptions ∧
        (s.WithTestMode b3).SigningRedirectURL = s.SigningRedirectURL ∧
        (s.WithTestMode b3).Title = s.Title) ∧
      ((s.WithTitle ttl).Title = some ttl ∧
        (s.WithTitle ttl).Signers = s.Signers ∧
        (s.WithTitle ttl).TemplateIDs = s.TemplateIDs ∧
        (s.WithTitle ttl).AllowDecline = s.AllowDecline ∧
        (s.WithTitle ttl).CCs = s.CCs ∧
        (s.WithTitle ttl).ClientID = s.ClientID ∧
        (s.WithTitle ttl).CustomFields = s.CustomFields ∧
        (s.WithTitle ttl).Files = s.Files ∧
        (s.WithTitle ttl).FileURLs = s.FileURLs ∧
        (s.WithTitle ttl).IsEID = s.IsEID ∧
        (s.WithTitle ttl).Message = s.Message ∧
        (s.WithTitle ttl).Metadata = s.Metadata ∧
        (s.WithTitle ttl).SigningOptions = s.SigningOptions ∧
        (s.WithTitle ttl).SigningRedirectURL = s.SigningRedirectURL ∧
        (s.WithTitle ttl).TestMode = s.TestMode) :=
  ⟨⟨rfl, rfl, rfl, rfl, rfl, rfl, rfl, rfl, rfl, rfl, rfl, rfl, rfl, rfl, rfl⟩,
    ⟨rfl, rfl, rfl, rfl, rfl, rfl, rfl, rfl, rfl, rfl, rfl, rfl, rfl, rfl, rfl⟩,
    ⟨rfl, rfl, rfl, rfl, rfl, rfl, rfl, rfl, rfl, rfl, rfl, rfl, rfl, rfl, rfl⟩,
    ⟨rfl, rfl, rfl, rfl, rfl, rfl, rfl, rfl, rfl, rfl, rfl, rfl, rfl, rfl, rfl⟩,
    ⟨rfl, rfl, rfl, rfl, rfl, rfl, rfl, rfl, rfl, rfl, rfl, rfl, rfl, rfl, rfl⟩,
    ⟨rfl, rfl, rfl, rfl, rfl, rfl, rfl, rfl, rfl, rfl, rfl, rfl, rfl, rfl, rfl⟩,
    ⟨rfl, rfl, rfl, rfl, rfl, rfl, rfl, rfl, rfl, rfl, rfl, rfl, rfl, rfl, rfl⟩,
    ⟨rfl, rfl, rfl, rfl, rfl, rfl, rfl, rfl, rfl, rfl, rfl, rfl, rfl, rfl, rfl⟩,
    ⟨rfl, rfl, rfl, rfl, rfl, rfl, rfl, rfl, rfl, rfl, rfl, rfl, rfl, rfl, rfl⟩,
    ⟨rfl, rfl, rfl, rfl, rfl, rfl, rfl, rfl, rfl, rfl, rfl, rfl, rfl, rfl, rfl⟩,
    ⟨rfl, rfl, rfl, rfl, rfl, rfl, rfl, rfl, rfl, rfl, rfl, rfl, rfl, rfl, rfl⟩,
    ⟨rfl, rfl, rfl, rfl, rfl, rfl, rfl, rfl, rfl, rfl, rfl, rfl, rfl, rfl, rfl⟩,
    ⟨rfl, rfl, rfl, rfl, rfl, rfl, rfl, rfl, rfl, rfl, rfl, rfl, rfl, rfl, rfl⟩⟩

/-- Witness for C10: the title setter on a fresh request sets the title
and keeps the signers. -/
theorem withSetters_frame_witness :
    ((NewSendSignatureRequest [] []).WithTitle "T").Title = some "T" ∧
      ((NewSendSignatureRequest [] []).WithTitle "T").Signers = [] :=
  ⟨(withSetters_frame (NewSendSignatureRequest [] []) true true true "T" "m" "c"
      "u" [] [] [] [] [] none).2.2.2.2.2.2.2.2.2.2.2.2.1,
    (withSetters_frame (NewSendSignatureRequest [] []) true true true "T" "m" "c"
      "u" [] [] [] [] [] none).2.2.2.2.2.2.2.2.2.2.2.2.2.1⟩

end Dropbox
